import Mathlib

/-!
Shallow embedding of the operation-lifecycle reconciler of the
mongodb-atlas-service-broker repository (package broker, together with the
cluster data model of pkg/atlas/cluster.go), and proofs of the claimed
properties.

Conventions of the embedding:
* Go strings are modelled as Lean String values; lengths and slices are
  taken on the character list, which coincides with the Go byte view on
  the ASCII data this code handles.
* A fallible Go call returning (value, error) becomes Except Err or, where
  a nil-pointer dereference is reachable, BrokerResult, whose panic
  constructor marks a Go runtime panic (distinct from every returned error).
* The Atlas client is passed explicitly; in Go it is recovered from the
  request context by atlasClientFromContext before each operation runs.
  Its remote responses are fields of the AtlasClient record, and each
  broker operation additionally returns the list of remote cluster-API
  calls it issued, so that "no remote call was made" is expressible.
-/

/-- Error taxonomy of the broker (section 7 of the design).  The concrete Go
values are apiresponses.ErrAsyncRequired, apiresponses.ErrInstanceDoesNotExist,
JSON unmarshal errors, catalog lookup failures and remote Atlas API errors. -/
inductive Err where
  | asyncRequired
  | instanceNotFound
  | paramParse
  | planNotFound
  | atlasError (code : Nat)
  | apiError (cause : Err)
deriving DecidableEq, Repr

/-- Result of a Go call that can return a value, return an error, or panic
with a nil-pointer dereference. -/
inductive BrokerResult (α : Type) where
  | ok (a : α)
  | err (e : Err)
  | panic
deriving DecidableEq, Repr

/-- Cluster states, from pkg/atlas/cluster.go. -/
def ClusterStateIdle : String := "IDLE"

def ClusterStateCreating : String := "CREATING"

def ClusterStateUpdating : String := "UPDATING"

def ClusterStateDeleting : String := "DELETING"

def ClusterStateDeleted : String := "DELETED"

def ClusterStateRepairing : String := "REPAIRING"

/-- Async operation kinds returned in OperationData, from the broker package. -/
def OperationProvision : String := "provision"

def OperationDeprovision : String := "deprovision"

def OperationUpdate : String := "update"

/-- InstanceIDLabel is the label key under which the instance ID is saved. -/
def InstanceIDLabel : String := "aosb-instance-id"

/-- One entry of the label set carried by a cluster. -/
structure Label where
  key : String
  value : String
deriving DecidableEq, Repr

/-- ProviderSettings of a cluster, from pkg/atlas/cluster.go; field names
follow the JSON tags and the accesses made by the broker package. -/
structure ProviderSettings where
  providerName : String
  instanceSizeName : String
  regionName : String
  diskIOPS : Nat
  diskTypeName : String
  encryptEBSVolume : Bool
  volumeType : String
deriving DecidableEq, Repr

/-- AutoScalingConfig, from pkg/atlas/cluster.go. -/
structure AutoScalingConfig where
  diskGBEnabled : Bool
deriving DecidableEq, Repr

/-- BIConnectorConfig, from pkg/atlas/cluster.go. -/
structure BIConnectorConfig where
  enabled : Bool
  readPreference : String
deriving DecidableEq, Repr

/-- RegionsConfig, from pkg/atlas/cluster.go. -/
structure RegionsConfig where
  electableNodes : Int
  readOnlyNodes : Int
  analyticsNodes : Int
  priority : Int
deriving DecidableEq, Repr

/-- ReplicationSpec, from pkg/atlas/cluster.go. -/
structure ReplicationSpec where
  id : String
  numShards : Nat
  regionsConfig : RegionsConfig
  zoneName : String
deriving DecidableEq, Repr

/-- Cluster, from pkg/atlas/cluster.go.  providerSettings is a pointer in Go,
hence an Option here.  The labels field and its get/set accessors live in a
repository file outside src; see Cluster.getLabel below.  diskSizeGB is a Go
float64 carried opaquely; no code under verification computes with it. -/
structure Cluster where
  name : String
  autoScaling : AutoScalingConfig
  backupEnabled : Bool
  biConnector : BIConnectorConfig
  clusterType : String
  diskSizeGB : Float
  encryptionAtRestProvider : String
  mongoDBMajorVersion : String
  numShards : Nat
  providerBackupEnabled : Bool
  replicationFactor : Nat
  replicationSpecs : List ReplicationSpec
  providerSettings : Option ProviderSettings
  labels : List Label
  stateName : String
  srvAddress : String

/-- The zero value atlas.Cluster\x7b\x7d of Go. -/
def emptyCluster : Cluster :=
  { name := ""
    autoScaling := { diskGBEnabled := false }
    backupEnabled := false
    biConnector := { enabled := false, readPreference := "" }
    clusterType := ""
    diskSizeGB := 0
    encryptionAtRestProvider := ""
    mongoDBMajorVersion := ""
    numShards := 0
    providerBackupEnabled := false
    replicationFactor := 0
    replicationSpecs := []
    providerSettings := none
    labels := []
    stateName := ""
    srvAddress := "" }

/-- The zero value atlas.ProviderSettings\x7b\x7d of Go. -/
def emptyProviderSettings : ProviderSettings :=
  { providerName := ""
    instanceSizeName := ""
    regionName := ""
    diskIOPS := 0
    diskTypeName := ""
    encryptEBSVolume := false
    volumeType := "" }

/-- Modelled from the spec: GetLabel is defined in a repository file that is
not under src.  The spec describes labels as a flat key-value tag set with a
get capability written in Go map style, cluster.labels[key], which yields the
stored value, or the zero value empty string when the key is absent. -/
def Cluster.getLabel (c : Cluster) (key : String) : String :=
  match c.labels.find? (fun l => l.key == key) with
  | some l => l.value
  | none => ""

/-- Modelled from the spec: SetLabel is defined in a repository file that is
not under src.  It stores value under key in the label set, replacing any
previous entry for that key. -/
def Cluster.setLabel (c : Cluster) (key value : String) : Cluster :=
  { c with labels := c.labels.filter (fun l => l.key != key) ++ [{ key := key, value := value }] }

/-- Maximum cluster name length accepted, from NormalizeClusterName. -/
def maximumNameLength : Nat := 23

/-- NormalizeClusterName sanitizes a name so the Atlas API accepts it,
truncating anything longer than 23 to its first 23 characters. -/
def NormalizeClusterName (name : String) : String :=
  if name.length > maximumNameLength then String.mk (name.data.take maximumNameLength)
  else name

/-- Catalog providers; the full catalog component is an external collaborator. -/
structure Provider where
  name : String
deriving DecidableEq, Repr

/-- Catalog instance sizes (plan tiers). -/
structure InstanceSize where
  name : String
deriving DecidableEq, Repr

/-- The Atlas client as the broker observes it: the canned remote responses
for each cluster-API call, the dashboard URL builder, and the service/plan
catalog lookups that findProviderByServiceID and findInstanceSizeByPlanID
consult. -/
structure AtlasClient where
  clusters : Except Err (List Cluster)
  providerOfService : String → Option Provider
  instanceSizeOfPlan : Provider → String → Option InstanceSize
  createClusterResult : Cluster → Except Err Cluster
  updateClusterResult : Cluster → Except Err Cluster
  deleteClusterResult : String → Option Err
  dashboardURL : String → String

/-- One remote cluster-API request issued by a broker operation. -/
inductive AtlasCall where
  | getClusters
  | createCluster (c : Cluster)
  | updateCluster (c : Cluster)
  | deleteCluster (name : String)

/-- Modelled from the spec: findProviderByServiceID lives in a repository
file that is not under src.  It resolves a service ID to a cloud provider via
the catalog collaborator; an unknown service ID is a plan-not-found failure. -/
def findProviderByServiceID (client : AtlasClient) (serviceID : String) : Except Err Provider :=
  match client.providerOfService serviceID with
  | some p => Except.ok p
  | none => Except.error Err.planNotFound

/-- Modelled from the spec: findInstanceSizeByPlanID lives in a repository
file that is not under src.  It resolves a plan ID to an instance-size tier
of the given provider; an unknown plan ID is a plan-not-found failure. -/
def findInstanceSizeByPlanID (client : AtlasClient) (provider : Provider) (planID : String) :
    Except Err InstanceSize :=
  match client.instanceSizeOfPlan provider planID with
  | some s => Except.ok s
  | none => Except.error Err.planNotFound

/-- Modelled from the spec: atlasToAPIError lives in a repository file that is
not under src.  It translates a remote Atlas API error into the caller-facing
error, preserving the remote status semantics, modelled as a tagging wrapper. -/
def atlasToAPIError (e : Err) : Err := Err.apiError e

/-- The membership test of the loop body of findClusterByInstanceID. -/
def matchesInstanceID (instanceID : String) (cluster : Cluster) : Bool :=
  let matchesName := cluster.name == NormalizeClusterName instanceID
  let matchesLabel := cluster.getLabel InstanceIDLabel == instanceID
  matchesName || matchesLabel

/-- findClusterByInstanceID finds a cluster matching the instance ID either by
label or name: it fetches the cluster list and returns the first match in
list order, or ErrInstanceDoesNotExist when nothing matches. -/
def findClusterByInstanceID (client : AtlasClient) (instanceID : String) : Except Err Cluster :=
  match client.clusters with
  | Except.error e => Except.error e
  | Except.ok clusters =>
    match clusters.find? (matchesInstanceID instanceID) with
    | some cluster => Except.ok cluster
    | none => Except.error Err.instanceNotFound

/-- Shape of the raw service parameters after the JSON layer: absent bytes,
malformed JSON, or well-formed JSON whose optional cluster key is absent,
null, or a cluster object. -/
inductive ClusterField where
  | absent
  | null
  | obj (c : Cluster)

/-- Raw parameter bytes as the JSON layer classifies them. -/
inductive RawParams where
  | empty
  | malformed
  | parsed (cluster : ClusterField)

/-- The deserialization step of clusterFromParams: the params struct starts
from a pointer to the zero cluster; unmarshalling replaces it with nil when
the cluster key is the JSON literal null, with the parsed object when it is
an object, and leaves it untouched when the key is absent or no bytes were
passed; malformed JSON is an unmarshal error. -/
def parseParams (rawParams : RawParams) : Except Err (Option Cluster) :=
  match rawParams with
  | RawParams.empty => Except.ok (some emptyCluster)
  | RawParams.malformed => Except.error Err.paramParse
  | RawParams.parsed ClusterField.absent => Except.ok (some emptyCluster)
  | RawParams.parsed ClusterField.null => Except.ok none
  | RawParams.parsed (ClusterField.obj c) => Except.ok (some c)

/-- clusterFromParams constructs a cluster object from an instance ID,
service, plan, and raw parameters.  With a non-empty plan ID it resolves the
provider and instance size from the catalog and writes both names into the
provider settings of the parsed cluster, allocating an empty settings object
when the parsed cluster had none.  The write dereferences the parsed cluster
pointer, which panics when the params carried a null cluster. -/
def clusterFromParams (client : AtlasClient) (instanceID serviceID planID : String)
    (rawParams : RawParams) : BrokerResult (Option Cluster) :=
  match parseParams rawParams with
  | Except.error e => BrokerResult.err e
  | Except.ok parsedCluster =>
    if planID = "" then BrokerResult.ok parsedCluster
    else
      match findProviderByServiceID client serviceID with
      | Except.error e => BrokerResult.err e
      | Except.ok provider =>
        match findInstanceSizeByPlanID client provider planID with
        | Except.error e => BrokerResult.err e
        | Except.ok instanceSize =>
          match parsedCluster with
          | none => BrokerResult.panic
          | some cluster =>
            let ps := cluster.providerSettings.getD emptyProviderSettings
            let ps := { ps with providerName := provider.name, instanceSizeName := instanceSize.name }
            BrokerResult.ok (some { cluster with providerSettings := some ps })

/-- Raw request context as the JSON layer classifies it: absent bytes,
malformed JSON, or well-formed JSON whose instance_name key yields the given
string, the empty string when the key is absent. -/
inductive RawContext where
  | empty
  | malformed
  | parsed (instanceName : String)

/-- clusterNameFromIDAndContext returns the display name when instance_name
is set in the context, otherwise the normalized instance ID. -/
def clusterNameFromIDAndContext (instanceID : String) (rawContext : RawContext) :
    Except Err String :=
  match rawContext with
  | RawContext.malformed => Except.error Err.paramParse
  | RawContext.empty => Except.ok (NormalizeClusterName instanceID)
  | RawContext.parsed instanceName =>
    if instanceName ≠ "" then Except.ok instanceName
    else Except.ok (NormalizeClusterName instanceID)

/-- Outcome of the locator lookup that reaches the poll state classification:
either the cluster was found with some remote state, or the lookup failed
with the tolerated instance-not-found error.  Every other lookup error is
returned to the caller before classification happens. -/
inductive LookupOutcome where
  | found (stateName : String)
  | notFound
deriving DecidableEq, Repr

/-- The state string the classification switch reads: the found state, or the
empty string, because on a tolerated lookup failure the Go cluster variable
holds the zero value whose StateName is empty. -/
def observedStateName (o : LookupOutcome) : String :=
  match o with
  | LookupOutcome.found stateName => stateName
  | LookupOutcome.notFound => ""

/-- Caller-visible poll states of brokerapi. -/
inductive LastOperationState where
  | succeeded
  | failed
  | inProgress
deriving DecidableEq, Repr

/-- The classification switch of LastOperation (part_000 lines 198 to 227):
state starts as Failed and is upgraded only by the listed combinations; the
deprovision arm additionally treats the tolerated not-found lookup error as
success. -/
def operationStateMachine (operationData : String) (o : LookupOutcome) : LastOperationState :=
  if operationData = OperationProvision then
    if observedStateName o = ClusterStateIdle then LastOperationState.succeeded
    else if observedStateName o = ClusterStateCreating then LastOperationState.inProgress
    else LastOperationState.failed
  else if operationData = OperationDeprovision then
    if o = LookupOutcome.notFound ∨ observedStateName o = ClusterStateDeleted then
      LastOperationState.succeeded
    else if observedStateName o = ClusterStateDeleting then LastOperationState.inProgress
    else LastOperationState.failed
  else if operationData = OperationUpdate then
    if observedStateName o = ClusterStateIdle then LastOperationState.succeeded
    else if observedStateName o = ClusterStateUpdating then LastOperationState.inProgress
    else LastOperationState.failed
  else LastOperationState.failed

/-- Poll details passed by the platform on each poll. -/
structure PollDetails where
  operationData : String

/-- Response shape of LastOperation. -/
structure LastOperationResult where
  state : LastOperationState
deriving DecidableEq, Repr

/-- LastOperation fetches the state of the outstanding operation: it looks the
instance up, returns any lookup error other than instance-not-found, and
otherwise classifies the observed outcome with the switch above. -/
def LastOperation (client : AtlasClient) (instanceID : String) (details : PollDetails) :
    Except Err LastOperationResult :=
  match findClusterByInstanceID client instanceID with
  | Except.error e =>
    if e = Err.instanceNotFound then
      Except.ok { state := operationStateMachine details.operationData LookupOutcome.notFound }
    else Except.error e
  | Except.ok cluster =>
    Except.ok { state :=
      operationStateMachine details.operationData (LookupOutcome.found cluster.stateName) }

/-- Provision request details. -/
structure ProvisionDetails where
  serviceID : String
  planID : String
  rawParameters : RawParams
  rawContext : RawContext

/-- Response shape of Provision. -/
structure ProvisionedServiceSpec where
  isAsync : Bool
  operationData : String
  dashboardURL : String
deriving DecidableEq, Repr

/-- Provision creates a new Atlas cluster: it requires async support, builds
the cluster from the params, names it from the instance ID and context,
stamps the instance ID label, and issues the remote create call.  Assigning
the name dereferences the cluster pointer returned by clusterFromParams,
which panics when the params carried a null cluster. -/
def Provision (client : AtlasClient) (instanceID : String) (details : ProvisionDetails)
    (asyncAllowed : Bool) : BrokerResult ProvisionedServiceSpec × List AtlasCall :=
  if !asyncAllowed then (BrokerResult.err Err.asyncRequired, [])
  else
    match clusterFromParams client instanceID details.serviceID details.planID
        details.rawParameters with
    | BrokerResult.err e => (BrokerResult.err e, [])
    | BrokerResult.panic => (BrokerResult.panic, [])
    | BrokerResult.ok parsedCluster =>
      match clusterNameFromIDAndContext instanceID details.rawContext with
      | Except.error e => (BrokerResult.err e, [])
      | Except.ok clusterName =>
        match parsedCluster with
        | none => (BrokerResult.panic, [])
        | some cluster =>
          let cluster := Cluster.setLabel { cluster with name := clusterName }
            InstanceIDLabel instanceID
          match client.createClusterResult cluster with
          | Except.error e =>
            (BrokerResult.err (atlasToAPIError e), [AtlasCall.createCluster cluster])
          | Except.ok resultingCluster =>
            let spec : ProvisionedServiceSpec :=
              { isAsync := true
                operationData := OperationProvision
                dashboardURL := client.dashboardURL resultingCluster.name }
            (BrokerResult.ok spec, [AtlasCall.createCluster cluster])

/-- Update request details. -/
structure UpdateDetails where
  serviceID : String
  planID : String
  rawParameters : RawParams

/-- Response shape of Update. -/
structure UpdateServiceSpec where
  isAsync : Bool
  operationData : String
  dashboardURL : String
deriving DecidableEq, Repr

/-- The provider-settings backfill block of Update (part_000 lines 111 to
119): each of the two fields that is still empty is copied from the existing
cluster; each copy dereferences the existing provider settings pointer and
panics when it is nil. -/
def backfillProviderSettings (existingPS : Option ProviderSettings) (ps : ProviderSettings) :
    BrokerResult ProviderSettings :=
  match (if ps.providerName = "" then
          match existingPS with
          | none => BrokerResult.panic
          | some eps => BrokerResult.ok { ps with providerName := eps.providerName }
        else BrokerResult.ok ps) with
  | BrokerResult.panic => BrokerResult.panic
  | BrokerResult.err e => BrokerResult.err e
  | BrokerResult.ok ps1 =>
    if ps1.instanceSizeName = "" then
      match existingPS with
      | none => BrokerResult.panic
      | some eps => BrokerResult.ok { ps1 with instanceSizeName := eps.instanceSizeName }
    else BrokerResult.ok ps1

/-- The remote update request and response shaping shared by the tail of
Update. -/
def updateClusterCall (client : AtlasClient) (cluster : Cluster) :
    BrokerResult UpdateServiceSpec × List AtlasCall :=
  match client.updateClusterResult cluster with
  | Except.error e =>
    (BrokerResult.err (atlasToAPIError e),
      [AtlasCall.getClusters, AtlasCall.updateCluster cluster])
  | Except.ok resultingCluster =>
    let spec : UpdateServiceSpec :=
      { isAsync := true
        operationData := OperationUpdate
        dashboardURL := client.dashboardURL resultingCluster.name }
    (BrokerResult.ok spec, [AtlasCall.getClusters, AtlasCall.updateCluster cluster])

/-- Update changes an existing cluster: it requires async support, locates the
existing cluster, resolves the new spec from the params, forces the name to
the existing name (a nil-pointer panic when the params carried a null
cluster), completes a present provider-settings object from the existing
values, and issues the remote update call. -/
def Update (client : AtlasClient) (instanceID : String) (details : UpdateDetails)
    (asyncAllowed : Bool) : BrokerResult UpdateServiceSpec × List AtlasCall :=
  if !asyncAllowed then (BrokerResult.err Err.asyncRequired, [])
  else
    match findClusterByInstanceID client instanceID with
    | Except.error e => (BrokerResult.err e, [AtlasCall.getClusters])
    | Except.ok existingCluster =>
      match clusterFromParams client instanceID details.serviceID details.planID
          details.rawParameters with
      | BrokerResult.err e => (BrokerResult.err e, [AtlasCall.getClusters])
      | BrokerResult.panic => (BrokerResult.panic, [AtlasCall.getClusters])
      | BrokerResult.ok none => (BrokerResult.panic, [AtlasCall.getClusters])
      | BrokerResult.ok (some newCluster) =>
        let cluster := { newCluster with name := existingCluster.name }
        match cluster.providerSettings with
        | none => updateClusterCall client cluster
        | some ps =>
          match backfillProviderSettings existingCluster.providerSettings ps with
          | BrokerResult.panic => (BrokerResult.panic, [AtlasCall.getClusters])
          | BrokerResult.err e => (BrokerResult.err e, [AtlasCall.getClusters])
          | BrokerResult.ok ps2 =>
            updateClusterCall client { cluster with providerSettings := some ps2 }

/-- Response shape of Deprovision. -/
structure DeprovisionServiceSpec where
  isAsync : Bool
  operationData : String
deriving DecidableEq, Repr

/-- Deprovision destroys a cluster: it requires async support, locates the
existing cluster, and issues the remote delete call by name.  The request
details are only logged and are omitted here. -/
def Deprovision (client : AtlasClient) (instanceID : String) (asyncAllowed : Bool) :
    BrokerResult DeprovisionServiceSpec × List AtlasCall :=
  if !asyncAllowed then (BrokerResult.err Err.asyncRequired, [])
  else
    match findClusterByInstanceID client instanceID with
    | Except.error e => (BrokerResult.err e, [AtlasCall.getClusters])
    | Except.ok cluster =>
      match client.deleteClusterResult cluster.name with
      | some e =>
        (BrokerResult.err (atlasToAPIError e),
          [AtlasCall.getClusters, AtlasCall.deleteCluster cluster.name])
      | none =>
        (BrokerResult.ok { isAsync := true, operationData := OperationDeprovision },
          [AtlasCall.getClusters, AtlasCall.deleteCluster cluster.name])

/-! Concrete clients and payloads used by the closed theorems and witnesses. -/

/-- A concrete client with no clusters, a catalog resolving service svc-aws to
provider AWS and plan plan-m10 to size M10, and succeeding mutation calls. -/
def nullParamClient : AtlasClient :=
  { clusters := Except.ok []
    providerOfService := fun s => if s = "svc-aws" then some { name := "AWS" } else none
    instanceSizeOfPlan := fun _ p => if p = "plan-m10" then some { name := "M10" } else none
    createClusterResult := fun c => Except.ok c
    updateClusterResult := fun c => Except.ok c
    deleteClusterResult := fun _ => none
    dashboardURL := fun n => n }

/-- Provision details carrying the null cluster payload and no plan. -/
def nullParamDetails : ProvisionDetails :=
  { serviceID := "svc-aws"
    planID := ""
    rawParameters := RawParams.parsed ClusterField.null
    rawContext := RawContext.empty }

/-- C5: cluster-name normalization is idempotent, returns strings of at most
23 characters unchanged, and truncates longer strings to exactly their first
23 characters, never rejecting. -/
theorem normalizeClusterName_idempotent_and_truncating (s : String) :
    NormalizeClusterName (NormalizeClusterName s) = NormalizeClusterName s ∧
    (s.length ≤ maximumNameLength → NormalizeClusterName s = s) ∧
    (s.length > maximumNameLength →
      NormalizeClusterName s = String.mk (s.data.take maximumNameLength)) ∧
    (NormalizeClusterName s).length ≤ maximumNameLength := by
  have hle : ∀ t : String, t.length ≤ maximumNameLength → NormalizeClusterName t = t := by
    intro t ht
    simp only [NormalizeClusterName]
    rw [if_neg (by omega)]
  by_cases h : s.length > maximumNameLength
  · have h1 : NormalizeClusterName s = String.mk (s.data.take maximumNameLength) := by
      simp only [NormalizeClusterName]
      rw [if_pos h]
    have h2 : (NormalizeClusterName s).length = maximumNameLength := by
      rw [h1]
      show (s.data.take maximumNameLength).length = maximumNameLength
      rw [List.length_take]
      exact Nat.min_eq_left (Nat.le_of_lt h)
    exact ⟨hle _ (by omega), fun hcon => absurd h (by omega), fun _ => h1, by omega⟩
  · have h1 : NormalizeClusterName s = s := hle s (by omega)
    refine ⟨by rw [h1]; exact h1, fun _ => h1, fun hcon => absurd hcon h, by rw [h1]; omega⟩

/-- Witness for C5: a short name is returned unchanged and a 26-character
name is truncated to its first 23 characters. -/
theorem normalizeClusterName_idempotent_and_truncating_witness :
    NormalizeClusterName "abc" = "abc" ∧
    NormalizeClusterName "abcdefghijklmnopqrstuvwxyz" =
      String.mk ("abcdefghijklmnopqrstuvwxyz".data.take maximumNameLength) := by
  constructor
  · exact (normalizeClusterName_idempotent_and_truncating "abc").2.1 (by decide)
  · exact (normalizeClusterName_idempotent_and_truncating
      "abcdefghijklmnopqrstuvwxyz").2.2.1 (by decide)

/-- C7: with asyncAllowed false each of Provision, Update and Deprovision
fails with the async-required error and issues no remote cluster-API call. -/
theorem operations_require_async (client : AtlasClient) (instanceID : String)
    (pd : ProvisionDetails) (ud : UpdateDetails) :
    Provision client instanceID pd false = (BrokerResult.err Err.asyncRequired, []) ∧
    Update client instanceID ud false = (BrokerResult.err Err.asyncRequired, []) ∧
    Deprovision client instanceID false = (BrokerResult.err Err.asyncRequired, []) :=
  ⟨rfl, rfl, rfl⟩

/-- C8: with an empty plan ID, clusterFromParams returns exactly what the
JSON layer parsed, touching no field. -/
theorem clusterFromParams_empty_plan_frame (client : AtlasClient)
    (instanceID serviceID : String) (rawParams : RawParams) (parsed : Option Cluster)
    (hparse : parseParams rawParams = Except.ok parsed) :
    clusterFromParams client instanceID serviceID "" rawParams = BrokerResult.ok parsed := by
  unfold clusterFromParams
  rw [hparse]
  simp

/-- Provider settings a user might pass with an update that keeps the plan. -/
def framePS : ProviderSettings :=
  { emptyProviderSettings with providerName := "GCP", regionName := "EU_WEST_2" }

/-- A user-supplied cluster payload carrying framePS. -/
def frameCluster : Cluster := { emptyCluster with providerSettings := some framePS }

/-- Witness for C8 at a concrete payload carrying provider settings. -/
theorem clusterFromParams_empty_plan_frame_witness :
    clusterFromParams nullParamClient "inst-1" "svc-aws" ""
      (RawParams.parsed (ClusterField.obj frameCluster)) =
      BrokerResult.ok (some frameCluster) :=
  clusterFromParams_empty_plan_frame nullParamClient "inst-1" "svc-aws"
    (RawParams.parsed (ClusterField.obj frameCluster)) (some frameCluster) rfl

/-- C9: the payload binding the cluster key to JSON null makes
clusterFromParams return a nil cluster with a nil error, so Provision panics
on the nil dereference instead of returning any error; with a non-empty plan
the dereference already happens inside clusterFromParams. -/
theorem provision_null_cluster_param_panics :
    clusterFromParams nullParamClient "inst-1" "svc-aws" ""
      (RawParams.parsed ClusterField.null) = BrokerResult.ok none ∧
    (Provision nullParamClient "inst-1" nullParamDetails true).1 = BrokerResult.panic ∧
    clusterFromParams nullParamClient "inst-1" "svc-aws" "plan-m10"
      (RawParams.parsed ClusterField.null) = BrokerResult.panic :=
  ⟨rfl, rfl, rfl⟩

/-- An existing cluster whose provider settings pointer is nil. -/
def nilProviderExisting : Cluster := { emptyCluster with name := "upd-instance" }

/-- A client whose cluster list holds only nilProviderExisting. -/
def nilProviderClient : AtlasClient :=
  { nullParamClient with clusters := Except.ok [nilProviderExisting] }

/-- Provider settings carrying only a region, with empty name and size. -/
def regionOnlyPS : ProviderSettings := { emptyProviderSettings with regionName := "EU_WEST_1" }

/-- A user payload whose provider settings carry only a region. -/
def regionOnlyCluster : Cluster := { emptyCluster with providerSettings := some regionOnlyPS }

/-- Update details passing only a region, leaving provider name and size
empty so the backfill must read the existing provider settings. -/
def nilProviderDetails : UpdateDetails :=
  { serviceID := "svc-aws"
    planID := ""
    rawParameters := RawParams.parsed (ClusterField.obj regionOnlyCluster) }

/-- C10: when the located cluster has nil provider settings and the resolved
spec has a provider settings object with an empty provider name or size, the
backfill dereferences the nil pointer and Update panics. -/
theorem update_nil_existing_provider_settings_panics :
    nilProviderExisting.providerSettings = none ∧
    (Update nilProviderClient "upd-instance" nilProviderDetails true).1 = BrokerResult.panic :=
  ⟨rfl, by decide⟩

/-- The poll-state table of spec section 4.4, written from the claim text:
the listed pairs map to the listed states and every unmatched combination,
unknown operation kinds and unknown remote states included, is failed. -/
def specPollState (operationKind : String) (o : LookupOutcome) : LastOperationState :=
  if operationKind = OperationProvision ∧ o = LookupOutcome.found ClusterStateIdle then
    LastOperationState.succeeded
  else if operationKind = OperationProvision ∧ o = LookupOutcome.found ClusterStateCreating then
    LastOperationState.inProgress
  else if operationKind = OperationUpdate ∧ o = LookupOutcome.found ClusterStateIdle then
    LastOperationState.succeeded
  else if operationKind = OperationUpdate ∧ o = LookupOutcome.found ClusterStateUpdating then
    LastOperationState.inProgress
  else if operationKind = OperationDeprovision ∧
      (o = LookupOutcome.notFound ∨ o = LookupOutcome.found ClusterStateDeleted) then
    LastOperationState.succeeded
  else if operationKind = OperationDeprovision ∧ o = LookupOutcome.found ClusterStateDeleting then
    LastOperationState.inProgress
  else LastOperationState.failed

/-- C1: the classification switch agrees with the table of spec section 4.4
on every operation kind and every lookup outcome, and always yields one of
the three poll states. -/
theorem operationStateMachine_matches_spec_table (operationKind : String) (o : LookupOutcome) :
    operationStateMachine operationKind o = specPollState operationKind o ∧
    (operationStateMachine operationKind o = LastOperationState.succeeded ∨
     operationStateMachine operationKind o = LastOperationState.inProgress ∨
     operationStateMachine operationKind o = LastOperationState.failed) := by
  constructor
  · by_cases h1 : operationKind = OperationProvision
    · subst h1
      cases o with
      | notFound => decide
      | found s =>
        simp only [operationStateMachine, specPollState, observedStateName]
        by_cases hs1 : s = ClusterStateIdle
        · simp [hs1, OperationProvision, OperationUpdate, OperationDeprovision,
            ClusterStateIdle]
        · by_cases hs2 : s = ClusterStateCreating
          · simp [hs1, hs2, OperationProvision, OperationUpdate, OperationDeprovision,
              ClusterStateIdle, ClusterStateCreating]
          · simp [hs1, hs2, OperationProvision, OperationUpdate, OperationDeprovision,
              ClusterStateIdle, ClusterStateCreating]
    · by_cases h2 : operationKind = OperationDeprovision
      · subst h2
        cases o with
        | notFound => decide
        | found s =>
          simp only [operationStateMachine, specPollState, observedStateName]
          by_cases hs1 : s = ClusterStateDeleted
          · simp [hs1, OperationProvision, OperationUpdate, OperationDeprovision,
              ClusterStateDeleted]
          · by_cases hs2 : s = ClusterStateDeleting
            · simp [hs1, hs2, OperationProvision, OperationUpdate, OperationDeprovision,
                ClusterStateDeleted, ClusterStateDeleting]
            · simp [hs1, hs2, OperationProvision, OperationUpdate, OperationDeprovision,
                ClusterStateDeleted, ClusterStateDeleting]
      · by_cases h3 : operationKind = OperationUpdate
        · subst h3
          cases o with
          | notFound => decide
          | found s =>
            simp only [operationStateMachine, specPollState, observedStateName]
            by_cases hs1 : s = ClusterStateIdle
            · simp [hs1, OperationProvision, OperationUpdate, OperationDeprovision,
                ClusterStateIdle]
            · by_cases hs2 : s = ClusterStateUpdating
              · simp [hs1, hs2, OperationProvision, OperationUpdate, OperationDeprovision,
                  ClusterStateIdle, ClusterStateUpdating]
              · simp [hs1, hs2, OperationProvision, OperationUpdate, OperationDeprovision,
                  ClusterStateIdle, ClusterStateUpdating]
        · simp [operationStateMachine, specPollState, h1, h2, h3]
  · cases hv : operationStateMachine operationKind o with
    | succeeded => exact Or.inl rfl
    | inProgress => exact Or.inr (Or.inl rfl)
    | failed => exact Or.inr (Or.inr rfl)

/-- The loop test holds exactly when the name matches the normalized instance
ID or the identity label matches the instance ID. -/
theorem matchesInstanceID_eq_true_iff (instanceID : String) (c : Cluster) :
    matchesInstanceID instanceID c = true ↔
      (c.name = NormalizeClusterName instanceID ∨ c.getLabel InstanceIDLabel = instanceID) := by
  simp [matchesInstanceID]

/-- List.find? returns none when the test fails on every element. -/
theorem find?_none_of_all_false (p : Cluster → Bool) (l : List Cluster)
    (h : ∀ a ∈ l, p a = false) : l.find? p = none := by
  induction l with
  | nil => rfl
  | cons a t ih =>
    have ha : p a = false := h a (List.mem_cons_self a t)
    rw [List.find?_cons_of_neg _ (by simp [ha])]
    exact ih fun x hx => h x (List.mem_cons_of_mem a hx)

/-- List.find? returns the head of the first true test. -/
theorem find?_first_of_all_false_before (p : Cluster → Bool) (pre : List Cluster)
    (c : Cluster) (post : List Cluster) (hc : p c = true)
    (hpre : ∀ a ∈ pre, p a = false) : (pre ++ c :: post).find? p = some c := by
  induction pre with
  | nil => simpa using List.find?_cons_of_pos post hc
  | cons a t ih =>
    have ha : p a = false := hpre a (List.mem_cons_self a t)
    rw [List.cons_append, List.find?_cons_of_neg _ (by simp [ha])]
    exact ih fun x hx => hpre x (List.mem_cons_of_mem a hx)

/-- C2: on a cluster list the locator fails with instance-not-found exactly
when no cluster matches by normalized name or by identity label, and returns
the first matching cluster in list order otherwise, in particular a cluster
matching only by label. -/
theorem findClusterByInstanceID_first_match_spec (client : AtlasClient) (instanceID : String)
    (cs : List Cluster) (hcs : client.clusters = Except.ok cs) :
    ((∀ c ∈ cs, ¬ (c.name = NormalizeClusterName instanceID ∨
        c.getLabel InstanceIDLabel = instanceID)) →
      findClusterByInstanceID client instanceID = Except.error Err.instanceNotFound) ∧
    (∀ (pre : List Cluster) (c : Cluster) (post : List Cluster), cs = pre ++ c :: post →
      (c.name = NormalizeClusterName instanceID ∨ c.getLabel InstanceIDLabel = instanceID) →
      (∀ c2 ∈ pre, ¬ (c2.name = NormalizeClusterName instanceID ∨
        c2.getLabel InstanceIDLabel = instanceID)) →
      findClusterByInstanceID client instanceID = Except.ok c) := by
  constructor
  · intro h
    have hall : ∀ a ∈ cs, matchesInstanceID instanceID a = false := by
      intro a ha
      have := h a ha
      rw [← matchesInstanceID_eq_true_iff] at this
      simp only [Bool.not_eq_true] at this
      exact this
    unfold findClusterByInstanceID
    rw [hcs]
    simp only [find?_none_of_all_false _ _ hall]
  · intro pre c post hEq hc hpre
    subst hEq
    have hc2 : matchesInstanceID instanceID c = true :=
      (matchesInstanceID_eq_true_iff instanceID c).mpr hc
    have hpre2 : ∀ a ∈ pre, matchesInstanceID instanceID a = false := by
      intro a ha
      have := hpre a ha
      rw [← matchesInstanceID_eq_true_iff] at this
      simp only [Bool.not_eq_true] at this
      exact this
    unfold findClusterByInstanceID
    rw [hcs]
    simp only [find?_first_of_all_false_before _ _ _ _ hc2 hpre2]

/-- A cluster recoverable only through its identity label: its display name
differs from the normalized instance ID. -/
def labeledCluster : Cluster :=
  { emptyCluster with name := "custom-display-name"
                      labels := [{ key := "aosb-instance-id", value := "witness-instance-id" }] }

/-- A cluster matching neither by name nor by label. -/
def plainCluster : Cluster := { emptyCluster with name := "other-cluster" }

/-- A client listing plainCluster before labeledCluster. -/
def locatorClient : AtlasClient :=
  { nullParamClient with clusters := Except.ok [plainCluster, labeledCluster] }

/-- Witness for C2: the label-matching cluster is returned although its name
differs from the normalized instance ID, skipping the earlier non-match. -/
theorem findClusterByInstanceID_first_match_spec_witness :
    labeledCluster.name ≠ NormalizeClusterName "witness-instance-id" ∧
    findClusterByInstanceID locatorClient "witness-instance-id" =
      Except.ok labeledCluster := by
  constructor
  · decide
  · exact (findClusterByInstanceID_first_match_spec locatorClient "witness-instance-id"
      [plainCluster, labeledCluster] rfl).2 [plainCluster] labeledCluster [] rfl
      (Or.inr (by decide))
      (by intro c2 hc2
          simp only [List.mem_singleton] at hc2
          subst hc2
          decide)

/-- C3: with a non-empty plan ID and a payload parsing to a cluster, the
resolver returns that cluster carrying provider settings whose provider name
and instance size are the catalog values, overwriting whatever the user
supplied for those two fields and keeping the rest; when the catalog names
are non-empty so are the resulting fields. -/
theorem clusterFromParams_nonempty_plan_overrides (client : AtlasClient)
    (instanceID serviceID planID : String) (rawParams : RawParams) (userCluster : Cluster)
    (provider : Provider) (instanceSize : InstanceSize)
    (hplan : planID ≠ "")
    (hparse : parseParams rawParams = Except.ok (some userCluster))
    (hprov : client.providerOfService serviceID = some provider)
    (hsize : client.instanceSizeOfPlan provider planID = some instanceSize)
    (hpname : provider.name ≠ "") (hsname : instanceSize.name ≠ "") :
    ∃ ps : ProviderSettings,
      clusterFromParams client instanceID serviceID planID rawParams =
        BrokerResult.ok (some { userCluster with providerSettings := some ps }) ∧
      ps = { userCluster.providerSettings.getD emptyProviderSettings with
              providerName := provider.name, instanceSizeName := instanceSize.name } ∧
      ps.providerName ≠ "" ∧ ps.instanceSizeName ≠ "" := by
  refine ⟨_, ?_, rfl, by simpa using hpname, by simpa using hsname⟩
  unfold clusterFromParams findProviderByServiceID findInstanceSizeByPlanID
  rw [hparse]
  simp [hplan, hprov, hsize]

/-- Provider settings a user supplies trying to pick a tier by hand. -/
def overridePS : ProviderSettings :=
  { emptyProviderSettings with
      providerName := "GCP"
      instanceSizeName := "M2"
      regionName := "EU_NORTH_1" }

/-- A user payload carrying overridePS. -/
def overrideCluster : Cluster := { emptyCluster with providerSettings := some overridePS }

/-- Witness for C3: the plan resolves to AWS M10, beating the user-supplied
GCP M2 while the user region survives. -/
theorem clusterFromParams_nonempty_plan_overrides_witness :
    ∃ ps : ProviderSettings,
      clusterFromParams nullParamClient "inst-1" "svc-aws" "plan-m10"
        (RawParams.parsed (ClusterField.obj overrideCluster)) =
        BrokerResult.ok (some { overrideCluster with providerSettings := some ps }) ∧
      ps = { overrideCluster.providerSettings.getD emptyProviderSettings with
              providerName := "AWS", instanceSizeName := "M10" } ∧
      ps.providerName ≠ "" ∧ ps.instanceSizeName ≠ "" :=
  clusterFromParams_nonempty_plan_overrides nullParamClient "inst-1" "svc-aws" "plan-m10"
    (RawParams.parsed (ClusterField.obj overrideCluster)) overrideCluster
    { name := "AWS" } { name := "M10" } (by decide) rfl (by decide) (by decide)
    (by decide) (by decide)

/-- C6 as written fails on the code: a provision poll whose lookup ends in
instance-not-found also yields a non-error result, namely failed, although
the claim reserves the conversion for deprovision. -/
theorem lastOperation_tolerates_notFound_beyond_deprovision_cex :
    findClusterByInstanceID nullParamClient "inst-1" = Except.error Err.instanceNotFound ∧
    OperationProvision ≠ OperationDeprovision ∧
    LastOperation nullParamClient "inst-1" { operationData := OperationProvision } =
      Except.ok { state := LastOperationState.failed } :=
  ⟨rfl, by decide, rfl⟩

/-- C6 amended: a lookup failing with instance-not-found is converted into a
non-error result for every operation kind, classified succeeded for
deprovision and failed for provision and update, while every other lookup
error is propagated to the caller untouched. -/
theorem lastOperation_notFound_tolerance_and_propagation (client : AtlasClient)
    (instanceID : String) (e : Err) (operationData : String) :
    (findClusterByInstanceID client instanceID = Except.error Err.instanceNotFound →
      LastOperation client instanceID { operationData := OperationDeprovision } =
        Except.ok { state := LastOperationState.succeeded } ∧
      LastOperation client instanceID { operationData := OperationProvision } =
        Except.ok { state := LastOperationState.failed } ∧
      LastOperation client instanceID { operationData := OperationUpdate } =
        Except.ok { state := LastOperationState.failed }) ∧
    (e ≠ Err.instanceNotFound → findClusterByInstanceID client instanceID = Except.error e →
      LastOperation client instanceID { operationData := operationData } = Except.error e) := by
  constructor
  · intro h
    unfold LastOperation
    rw [h]
    exact ⟨rfl, rfl, rfl⟩
  · intro hne h
    unfold LastOperation
    rw [h]
    simp [hne]

/-- A client whose cluster listing fails with a remote API error. -/
def failingListClient : AtlasClient :=
  { nullParamClient with clusters := Except.error (Err.atlasError 500) }

/-- Witness for the amended C6: an empty listing makes a deprovision poll
succeed, and a remote listing failure is returned untouched. -/
theorem lastOperation_notFound_tolerance_and_propagation_witness :
    LastOperation nullParamClient "inst-1" { operationData := OperationDeprovision } =
      Except.ok { state := LastOperationState.succeeded } ∧
    LastOperation failingListClient "inst-1" { operationData := OperationProvision } =
      Except.error (Err.atlasError 500) := by
  constructor
  · exact ((lastOperation_notFound_tolerance_and_propagation nullParamClient "inst-1"
      (Err.atlasError 500) OperationDeprovision).1 rfl).1
  · exact (lastOperation_notFound_tolerance_and_propagation failingListClient "inst-1"
      (Err.atlasError 500) OperationProvision).2 (by decide) rfl

/-- The outgoing update spec as the claim describes it: the resolved cluster
with its name forced to the existing name and, inside a present provider
settings object, each of provider name and instance size that is still empty
filled from the existing cluster while every other field is kept. -/
def specResolvedUpdateSpec (existingCluster newCluster : Cluster) : Cluster :=
  { newCluster with
      name := existingCluster.name
      providerSettings := newCluster.providerSettings.map (fun ps =>
        { ps with
            providerName :=
              if ps.providerName = "" then
                (existingCluster.providerSettings.getD emptyProviderSettings).providerName
              else ps.providerName
            instanceSizeName :=
              if ps.instanceSizeName = "" then
                (existingCluster.providerSettings.getD emptyProviderSettings).instanceSizeName
              else ps.instanceSizeName }) }

/-- The second component of updateClusterCall records the list and update
requests whatever the remote update result is. -/
theorem updateClusterCall_snd (client : AtlasClient) (cluster : Cluster) :
    (updateClusterCall client cluster).2 =
      [AtlasCall.getClusters, AtlasCall.updateCluster cluster] := by
  unfold updateClusterCall
  cases client.updateClusterResult cluster <;> rfl

/-- When an empty field forces a read, the existing provider settings are
present, and the backfill completes without panicking, filling exactly the
empty fields. -/
theorem backfillProviderSettings_ok (existingPS : Option ProviderSettings)
    (ps : ProviderSettings)
    (hsafe : ps.providerName = "" ∨ ps.instanceSizeName = "" → existingPS ≠ none) :
    backfillProviderSettings existingPS ps = BrokerResult.ok
      { ps with
          providerName :=
            if ps.providerName = "" then
              (existingPS.getD emptyProviderSettings).providerName
            else ps.providerName
          instanceSizeName :=
            if ps.instanceSizeName = "" then
              (existingPS.getD emptyProviderSettings).instanceSizeName
            else ps.instanceSizeName } := by
  unfold backfillProviderSettings
  by_cases h1 : ps.providerName = ""
  · have hne : existingPS ≠ none := hsafe (Or.inl h1)
    cases existingPS with
    | none => exact absurd rfl hne
    | some eps =>
      by_cases h2 : ps.instanceSizeName = ""
      · simp [h1, h2]
      · simp [h1, h2]
  · by_cases h2 : ps.instanceSizeName = ""
    · have hne : existingPS ≠ none := hsafe (Or.inr h2)
      cases existingPS with
      | none => exact absurd rfl hne
      | some eps => simp [h1, h2]
    · simp [h1, h2]

/-- C4: whenever Update gets past the locator and the resolver and the
backfill does not hit a nil existing provider settings pointer, the cluster
sent to the remote update API is exactly the resolved cluster renamed to the
existing name with its empty provider name and size backfilled. -/
theorem update_forces_name_and_backfills (client : AtlasClient) (instanceID : String)
    (details : UpdateDetails) (existingCluster newCluster : Cluster)
    (hfind : findClusterByInstanceID client instanceID = Except.ok existingCluster)
    (hres : clusterFromParams client instanceID details.serviceID details.planID
      details.rawParameters = BrokerResult.ok (some newCluster))
    (hsafe : ∀ ps, newCluster.providerSettings = some ps →
      ps.providerName = "" ∨ ps.instanceSizeName = "" →
      existingCluster.providerSettings ≠ none) :
    (Update client instanceID details true).2 =
      [AtlasCall.getClusters,
       AtlasCall.updateCluster (specResolvedUpdateSpec existingCluster newCluster)] := by
  unfold Update
  rw [hfind, hres]
  simp only [Bool.not_true, Bool.false_eq_true, if_false]
  cases hps : newCluster.providerSettings with
  | none =>
    simp only [hps, updateClusterCall_snd]
    unfold specResolvedUpdateSpec
    rw [hps]
    rfl
  | some ps =>
    simp only [hps, backfillProviderSettings_ok existingCluster.providerSettings ps
      (hsafe ps hps), updateClusterCall_snd]
    unfold specResolvedUpdateSpec
    rw [hps]
    rfl

/-- Provider settings of the existing cluster in the C4 scenario. -/
def c4ExistingPS : ProviderSettings :=
  { emptyProviderSettings with providerName := "AWS", instanceSizeName := "M10" }

/-- The existing cluster of the C4 scenario. -/
def c4Existing : Cluster :=
  { emptyCluster with name := "witness-update-name", providerSettings := some c4ExistingPS }

/-- A client listing exactly the C4 existing cluster. -/
def c4Client : AtlasClient :=
  { nullParamClient with clusters := Except.ok [c4Existing] }

/-- Update details of the C4 scenario: no plan change, only a region. -/
def c4Details : UpdateDetails :=
  { serviceID := "svc-aws"
    planID := ""
    rawParameters := RawParams.parsed (ClusterField.obj regionOnlyCluster) }

/-- Witness for C4: with existing provider AWS M10 and a new-params cluster
carrying only a region, the outgoing spec keeps the existing name, provider
AWS, size M10 and the user region. -/
theorem update_forces_name_and_backfills_witness :
    (Update c4Client "witness-update-name" c4Details true).2 =
      [AtlasCall.getClusters,
       AtlasCall.updateCluster (specResolvedUpdateSpec c4Existing regionOnlyCluster)] ∧
    (specResolvedUpdateSpec c4Existing regionOnlyCluster).name = "witness-update-name" ∧
    (specResolvedUpdateSpec c4Existing regionOnlyCluster).providerSettings =
      some { emptyProviderSettings with
              providerName := "AWS"
              instanceSizeName := "M10"
              regionName := "EU_WEST_1" } := by
  refine ⟨?_, by decide, by decide⟩
  exact update_forces_name_and_backfills c4Client "witness-update-name" c4Details
    c4Existing regionOnlyCluster rfl rfl
    (by intro ps _ _
        simp [c4Existing])
